/-
Verification of the FinAgent backend's data-freshness and valuation layer.

This file shallowly embeds the relevant parts of the Python backend:
  - `routes/portfolio.py`: holding enrichment and portfolio summary,
  - `services/fmp_cache.py`: the per-resource TTL cache,
  - `services/crypto_service.py`: the batch crypto price cache,
  - `services/portfolio_snapshot_service.py`: the daily snapshot store and
    period-performance engine,
and proves or refutes the specification's claims about them.

Modelling conventions:
  - money and prices are rationals (Python floats carry exact decimal
    literals in every scenario the claims mention);
  - timestamps are rationals in the unit each service uses (days for the
    FMP cache, hours for the crypto cache); `datetime.now()` becomes an
    explicit `now` argument;
  - calendar days are integers (the `YYYY-MM-DD` string keys of the
    snapshot store are in order- and arithmetic-preserving bijection with
    day numbers; `strftime`/`strptime` round-trip);
  - Python dicts are association lists with first-match lookup, written so
    that `update`/assignment has the same lookup semantics as Python;
  - fallible calls return `Option`/`Except`; an exception escaping a
    function is an explicit `raised` result.
-/
import Mathlib

namespace FinAgent

/-! ## Valuation aggregator: `routes/portfolio.py` -/

/-- A raw holding as read by `enrich_holding` / `_enrich_for_snapshot`:
only `quantity` and `costBasis` (read with `.get(..., 0)`) enter the
arithmetic. -/
structure Holding where
  quantity : ℚ
  costBasis : ℚ
  deriving DecidableEq, Repr

/-- The pricing fields `enrich_holding` adds to a holding
(`routes/portfolio.py`, `enrich_holding`). -/
structure EnrichedFields where
  name : Option String
  image : Option String
  industry : Option String
  currentPrice : Option ℚ
  currentValue : Option ℚ
  totalCost : ℚ
  gainLoss : Option ℚ
  gainLossPercent : Option ℚ
  deriving DecidableEq, Repr

/-- `enrich_holding(holding, price, name, image, industry)` from
`routes/portfolio.py`: with a known price, `current_value = quantity *
price`, `gain_loss = current_value - total_cost`, and `gain_loss_percent =
gain_loss / total_cost * 100 if total_cost > 0 else 0`; with `price is
None` all three pricing fields are `None`. -/
def enrich_holding (h : Holding) (price : Option ℚ)
    (name image industry : Option String) : EnrichedFields :=
  let total_cost := h.quantity * h.costBasis
  match price with
  | some p =>
    let current_value := h.quantity * p
    let gain_loss := current_value - total_cost
    let gain_loss_percent := if 0 < total_cost then gain_loss / total_cost * 100 else 0
    { name := name, image := image, industry := industry,
      currentPrice := some p, currentValue := some current_value,
      totalCost := total_cost, gainLoss := some gain_loss,
      gainLossPercent := some gain_loss_percent }
  | none =>
    { name := name, image := image, industry := industry,
      currentPrice := none, currentValue := none,
      totalCost := total_cost, gainLoss := none, gainLossPercent := none }

/-- The fields `_enrich_for_snapshot` adds (`routes/portfolio.py`). -/
structure SnapEnrichedFields where
  currentPrice : Option ℚ
  currentValue : Option ℚ
  totalCost : ℚ
  gainLoss : Option ℚ
  gainLossPercent : Option ℚ
  deriving DecidableEq, Repr

/-- `_enrich_for_snapshot(holding, price)` from `routes/portfolio.py`:
identical arithmetic to `enrich_holding`, without the metadata fields. -/
def enrich_for_snapshot (h : Holding) (price : Option ℚ) : SnapEnrichedFields :=
  let total_cost := h.quantity * h.costBasis
  match price with
  | some p =>
    let current_value := h.quantity * p
    let gain_loss := current_value - total_cost
    let gain_loss_percent := if 0 < total_cost then gain_loss / total_cost * 100 else 0
    { currentPrice := some p, currentValue := some current_value,
      totalCost := total_cost, gainLoss := some gain_loss,
      gainLossPercent := some gain_loss_percent }
  | none =>
    { currentPrice := none, currentValue := none,
      totalCost := total_cost, gainLoss := none, gainLossPercent := none }

/-- What `calculate_summary` reads off each enriched holding:
`holding.get("assetType", "stock")`, `holding.get("totalCost", 0)`,
`holding.get("currentValue")`, `holding.get("gainLoss")`. -/
structure EnrichedHolding where
  assetType : String
  totalCost : ℚ
  currentValue : Option ℚ
  gainLoss : Option ℚ
  deriving DecidableEq, Repr

/-- One `byAssetType` bucket of the summary. -/
structure Bucket where
  count : ℕ
  value : ℚ
  cost : ℚ
  gainLoss : ℚ
  deriving DecidableEq, Repr

def zeroBucket : Bucket := { count := 0, value := 0, cost := 0, gainLoss := 0 }

/-- The `byAssetType` dict of `calculate_summary`: its keys are exactly
`stock`, `etf`, `crypto`, `custom`, `cash` (no `option` key exists in the
source). -/
structure ByAssetType where
  stock : Bucket
  etf : Bucket
  crypto : Bucket
  custom : Bucket
  cash : Bucket
  deriving DecidableEq, Repr

/-- Dict indexing `summary["byAssetType"][k]`; `none` models
`k not in summary["byAssetType"]`. -/
def getBucket (b : ByAssetType) (k : String) : Option Bucket :=
  if k = "stock" then some b.stock
  else if k = "etf" then some b.etf
  else if k = "crypto" then some b.crypto
  else if k = "custom" then some b.custom
  else if k = "cash" then some b.cash
  else none

/-- Dict assignment `summary["byAssetType"][k] = v` (no-op on a key the
dict does not have, which matches the guarded access in the source). -/
def setBucket (b : ByAssetType) (k : String) (v : Bucket) : ByAssetType :=
  if k = "stock" then { b with stock := v }
  else if k = "etf" then { b with etf := v }
  else if k = "crypto" then { b with crypto := v }
  else if k = "custom" then { b with custom := v }
  else if k = "cash" then { b with cash := v }
  else b

/-- The summary dict of `calculate_summary`. -/
structure Summary where
  totalValue : ℚ
  totalCost : ℚ
  totalGainLoss : ℚ
  totalGainLossPercent : ℚ
  byAssetType : ByAssetType
  deriving DecidableEq, Repr

def initialSummary : Summary :=
  { totalValue := 0, totalCost := 0, totalGainLoss := 0, totalGainLossPercent := 0,
    byAssetType :=
      { stock := zeroBucket, etf := zeroBucket, crypto := zeroBucket,
        custom := zeroBucket, cash := zeroBucket } }

/-- The bucket updates done inside the `if asset_type in
summary["byAssetType"]` block: `count += 1`, `cost += total_cost`, then
`value += current_value` when it is not `None` and `gainLoss += gain_loss`
when it is not `None`. -/
def bumpBucket (b : Bucket) (h : EnrichedHolding) : Bucket :=
  let b1 : Bucket := { b with count := b.count + 1, cost := b.cost + h.totalCost }
  let b2 : Bucket :=
    match h.currentValue with
    | some cv => { b1 with value := b1.value + cv }
    | none => b1
  match h.gainLoss with
  | some gl => { b2 with gainLoss := b2.gainLoss + gl }
  | none => b2

/-- The `if asset_type in summary["byAssetType"]` block of the loop body
of `calculate_summary`: bump the holding's bucket and add its
`currentValue` / `gainLoss` (when not `None`) to `totalValue` /
`totalGainLoss`; a holding whose asset type has no bucket is skipped
entirely here. -/
def summaryStepBuckets (s : Summary) (h : EnrichedHolding) : Summary :=
  match getBucket s.byAssetType h.assetType with
  | some b =>
    { s with
      byAssetType := setBucket s.byAssetType h.assetType (bumpBucket b h)
      totalValue :=
        match h.currentValue with
        | some cv => s.totalValue + cv
        | none => s.totalValue
      totalGainLoss :=
        match h.gainLoss with
        | some gl => s.totalGainLoss + gl
        | none => s.totalGainLoss }
  | none => s

/-- The `if asset_type != "cash": totalCost += total_cost` tail of the
loop body (cash is excluded from invested capital). -/
def summaryStepCost (s : Summary) (h : EnrichedHolding) : Summary :=
  if h.assetType = "cash" then s
  else { s with totalCost := s.totalCost + h.totalCost }

/-- One iteration of the `for holding in holdings` loop of
`calculate_summary`. -/
def summaryStep (s : Summary) (h : EnrichedHolding) : Summary :=
  summaryStepCost (summaryStepBuckets s h) h

/-- The final `if summary["totalCost"] > 0` block of `calculate_summary`:
set `totalGainLossPercent = totalGainLoss / totalCost * 100` when
`totalCost > 0`, else leave it as accumulated (`0`). -/
def applyPercentTotal (s : Summary) : Summary :=
  if 0 < s.totalCost then
    { s with totalGainLossPercent := s.totalGainLoss / s.totalCost * 100 }
  else s

/-- `calculate_summary(holdings)` from `routes/portfolio.py`: fold the
per-holding loop over the zero summary, then apply the final percent
computation. -/
def calculate_summary (holdings : List EnrichedHolding) : Summary :=
  applyPercentTotal (holdings.foldl summaryStep initialSummary)

/-- The asset-type partition at the top of `get_portfolio`
(`routes/portfolio.py`): holdings whose `assetType` is not `crypto`,
`custom` or `cash` — including `option` — land in `stock_etf_holdings`
and are priced by the `profile` lookup on their raw ticker. -/
def routeOf (assetType : String) : String :=
  if assetType = "crypto" then "crypto"
  else if assetType = "custom" then "custom"
  else if assetType = "cash" then "cash"
  else "stock_etf"

/-! ## Tiered TTL cache: `services/fmp_cache.py` -/

/-- The `TTL_DAYS` table of `FMPCache`, in days. -/
def TTL_DAYS : List (String × ℚ) :=
  [("profile", 1),
   ("price_history", 1),
   ("earnings_calendar", 1),
   ("income_quarterly", 90),
   ("income_annual", 90),
   ("balance_sheet", 90),
   ("cash_flow", 90),
   ("earnings", 90),
   ("ratios", 90),
   ("key_metrics", 90),
   ("analyst_estimates", 30),
   ("price_target_consensus", 1),
   ("price_target_summary", 1),
   ("analyst_grades", 1),
   ("analyst_grades_consensus", 1),
   ("product_segments", 365),
   ("geo_segments", 365),
   ("search", 7),
   ("stock_news", 0.25),
   ("insider_trading", 1),
   ("senate_trades", 1)]

/-- `self.TTL_DAYS.get(endpoint, 1)`. -/
def ttlDaysOf (endpoint : String) : ℚ := (TTL_DAYS.lookup endpoint).getD 1

/-- One on-disk cache document, as written by `FMPCache._write_cache`:
`{symbol, endpoint, fetched_at, ttl_days, data}`.  `fetched_at` is a
timestamp in days; the payload type is a parameter (the cache treats it
as opaque). -/
structure FMPEntry (α : Type) where
  symbol : String
  endpoint : String
  fetched_at : ℚ
  ttl_days : ℚ
  data : α
  deriving DecidableEq, Repr

/-- `FMPCache._is_fresh(cached_data, endpoint)`: `False` on a missing
document, otherwise `now < fetched_at + timedelta(days=TTL_DAYS.get(
endpoint, 1))`.  (A written document always carries `fetched_at`; the
`None`/missing-key guards collapse to the `none` case.) -/
def fmp_is_fresh {α : Type} (cached : Option (FMPEntry α)) (endpoint : String)
    (now : ℚ) : Bool :=
  match cached with
  | none => false
  | some c => decide (now < c.fetched_at + ttlDaysOf endpoint)

/-- Result of a call to `FMPCache.get`: a normal return (`Python None`
becomes `ok none`) or an exception escaping the call. -/
inductive FMPResult (α : Type) where
  | ok (v : Option α)
  | raised
  deriving DecidableEq, Repr

/-- Observable outcome of `FMPCache.get` on one `(symbol, endpoint)` key:
its return/raise behaviour, the on-disk document afterwards, and whether
the fetcher was invoked. -/
structure FMPGetOut (α : Type) where
  result : FMPResult α
  disk : Option (FMPEntry α)
  fetcherCalled : Bool
  deriving DecidableEq, Repr

/-- The `# Cache miss or stale - fetch from API` half of
`FMPCache.get` (`services/fmp_cache.py`): `fetch` is the outcome of
`_fetch_from_api` (`Except.error` models a raised exception, `ok none` a
`None` payload); `isError` models the `isinstance(data, dict) and "Error"
in str(data)` write guard; on success with valid data the document is
rewritten with `fetched_at = now`.  `cachedVar` is the state of the local
variable `cached`, which is only assigned inside `if not force_refresh:`;
its outer `none` means the variable is unbound, so the `except` handler's
`if cached:` raises `UnboundLocalError` (`.raised`). -/
def fmp_fetch_path {α : Type} (disk : Option (FMPEntry α)) (symbol endpoint : String)
    (now : ℚ) (cachedVar : Option (Option (FMPEntry α)))
    (fetch : Except Unit (Option α)) (isError : α → Bool) : FMPGetOut α :=
  match fetch with
  | .ok data =>
    let disk' :=
      match data with
      | some d =>
        if isError d then disk
        else some { symbol := symbol, endpoint := endpoint, fetched_at := now,
                    ttl_days := ttlDaysOf endpoint, data := d }
      | none => disk
    { result := .ok data, disk := disk', fetcherCalled := true }
  | .error _ =>
    match cachedVar with
    | some (some c) => { result := .ok (some c.data), disk := disk, fetcherCalled := true }
    | some none => { result := .ok none, disk := disk, fetcherCalled := true }
    | none => { result := .raised, disk := disk, fetcherCalled := true }

/-- `FMPCache.get(endpoint, symbol, force_refresh)` proper: the cache-hit
check, falling through to `fmp_fetch_path` on a miss or staleness. -/
def fmp_get {α : Type} (disk : Option (FMPEntry α)) (symbol endpoint : String)
    (now : ℚ) (force_refresh : Bool) (fetch : Except Unit (Option α))
    (isError : α → Bool) : FMPGetOut α :=
  let cachedVar : Option (Option (FMPEntry α)) :=
    if force_refresh then none else some disk
  match cachedVar with
  | some (some c) =>
    if fmp_is_fresh (some c) endpoint now then
      { result := .ok (some c.data), disk := disk, fetcherCalled := false }
    else
      fmp_fetch_path disk symbol endpoint now (some (some c)) fetch isError
  | other => fmp_fetch_path disk symbol endpoint now other fetch isError

/-! ## Batch crypto price cache: `services/crypto_service.py` -/

/-- `existing.update(prices)` on a Python dict, at the level of lookup
semantics: a key of `n` gets `n`'s value, any other key keeps its `e`
value.  (Written `n` first so that `List.lookup` realises exactly that;
Python's insertion order is never observed by the service.) -/
def dictUpdate {α : Type} (e n : List (String × α)) : List (String × α) :=
  n ++ e.filter (fun p => (n.lookup p.1).isNone)

theorem lookup_append {α β : Type} [BEq α] (l₁ l₂ : List (α × β)) (k : α) :
    (l₁ ++ l₂).lookup k = ((l₁.lookup k).or (l₂.lookup k)) := by
  induction l₁ with
  | nil => simp [List.lookup]
  | cons p t ih =>
    rcases p with ⟨a, b⟩
    by_cases h : k == a
    · simp [List.lookup, h]
    · simp only [List.cons_append, List.lookup, h]
      exact ih

theorem lookup_filter_irrelevant {α : Type} (e : List (String × α))
    (q : String × α → Bool) (k : String) (hk : ∀ v, q (k, v) = true) :
    (e.filter q).lookup k = e.lookup k := by
  induction e with
  | nil => simp
  | cons p t ih =>
    rcases p with ⟨a, b⟩
    by_cases h : k = a
    · subst h
      simp [List.filter, hk b, List.lookup, ih]
    · have hne : (k == a) = false := by
        simp [h]
      cases hq : q (a, b) <;> simp [List.filter, hq, List.lookup, hne, ih]

/-- `dictUpdate` has Python `dict.update` lookup semantics. -/
theorem lookup_dictUpdate {α : Type} (e n : List (String × α)) (k : String) :
    (dictUpdate e n).lookup k = ((n.lookup k).or (e.lookup k)) := by
  unfold dictUpdate
  rw [lookup_append]
  cases hn : n.lookup k with
  | some v => simp
  | none =>
    simp only [Option.none_or, Option.or]
    cases hl : (List.filter (fun p => (n.lookup p.1).isNone) e).lookup k with
    | some v =>
      rw [lookup_filter_irrelevant e _ k (fun v => by simp [hn])] at hl
      simp [hl]
    | none =>
      rw [lookup_filter_irrelevant e _ k (fun v => by simp [hn])] at hl
      simp [hl]

/-- `CACHE_TTL_HOURS = 12`. -/
def CACHE_TTL_HOURS : ℚ := 12

/-- The one-symbol price entry `get_prices_batch` stores per ticker. -/
structure PriceData where
  ticker : String
  coinId : String
  price : Option ℚ
  change24h : Option ℚ
  marketCap : Option ℚ
  volume24h : Option ℚ
  deriving DecidableEq, Repr

/-- One CoinGecko `simple/price` response row (`data[coin_id]`). -/
structure CoinRaw where
  usd : Option ℚ
  usd_24h_change : Option ℚ
  usd_market_cap : Option ℚ
  usd_24h_vol : Option ℚ
  deriving DecidableEq, Repr

/-- The on-disk `prices.json` document:
`{"fetchedAt": ..., "prices": {...}}`.  `fetchedAt` is a timestamp in
hours. -/
structure CryptoDoc where
  fetchedAt : ℚ
  prices : List (String × PriceData)
  deriving DecidableEq, Repr

/-- `CryptoService._read_cache()`: the stored prices when the file exists,
parses and `now - fetchedAt < timedelta(hours=12)`, else `{}`. -/
def crypto_read_cache (file : Option CryptoDoc) (now : ℚ) : List (String × PriceData) :=
  match file with
  | none => []
  | some d => if now - d.fetchedAt < CACHE_TTL_HOURS then d.prices else []

/-- `CryptoService._write_cache(prices)`: merge into the existing prices
when the existing document is still fresh at write time (else start from
`{}`), and stamp the whole document with `fetchedAt = now`.  The inline
`existing` computation in the source duplicates `_read_cache`'s logic
verbatim, so it is expressed through `crypto_read_cache` here. -/
def crypto_write_cache (file : Option CryptoDoc) (now : ℚ)
    (prices : List (String × PriceData)) : CryptoDoc :=
  { fetchedAt := now, prices := dictUpdate (crypto_read_cache file now) prices }

theorem crypto_read_fresh (d : CryptoDoc) (now : ℚ)
    (h : now - d.fetchedAt < CACHE_TTL_HOURS) :
    crypto_read_cache (some d) now = d.prices := by
  unfold crypto_read_cache
  dsimp only
  rw [if_pos h]

theorem crypto_read_stale (d : CryptoDoc) (now : ℚ)
    (h : ¬ now - d.fetchedAt < CACHE_TTL_HOURS) :
    crypto_read_cache (some d) now = [] := by
  unfold crypto_read_cache
  dsimp only
  rw [if_neg h]

/-- `CRYPTO_ID_MAP` from `services/crypto_service.py`. -/
def CRYPTO_ID_MAP : List (String × String) :=
  [("BTC", "bitcoin"), ("ETH", "ethereum"), ("SOL", "solana"), ("XRP", "ripple"),
   ("ADA", "cardano"), ("DOGE", "dogecoin"), ("DOT", "polkadot"), ("AVAX", "avalanche-2"),
   ("MATIC", "matic-network"), ("LINK", "chainlink"), ("SHIB", "shiba-inu"),
   ("LTC", "litecoin"), ("UNI", "uniswap"), ("ATOM", "cosmos"), ("XLM", "stellar"),
   ("ALGO", "algorand"), ("VET", "vechain"), ("FIL", "filecoin"),
   ("HBAR", "hedera-hashgraph"), ("ICP", "internet-computer"), ("APT", "aptos"),
   ("ARB", "arbitrum"), ("OP", "optimism"), ("NEAR", "near"), ("INJ", "injective-protocol"),
   ("TIA", "celestia"), ("SUI", "sui"), ("SEI", "sei-network"),
   ("JUP", "jupiter-exchange-solana"), ("RENDER", "render-token"), ("PEPE", "pepe"),
   ("WIF", "dogwifcoin"), ("BONK", "bonk"), ("FLOKI", "floki"), ("MEME", "memecoin-2"),
   ("ONDO", "ondo-finance"), ("ENA", "ethena"), ("JASMY", "jasmycoin"), ("FET", "fetch-ai"),
   ("BCH", "bitcoin-cash"), ("TRX", "tron"), ("TON", "the-open-network"), ("MKR", "maker"),
   ("AAVE", "aave"), ("CRV", "curve-dao-token"), ("SNX", "havven"),
   ("COMP", "compound-governance-token"), ("GRT", "the-graph"),
   ("ENS", "ethereum-name-service"), ("LDO", "lido-dao"), ("RPL", "rocket-pool"),
   ("SAND", "the-sandbox"), ("MANA", "decentraland"), ("APE", "apecoin"),
   ("AXS", "axie-infinity"), ("IMX", "immutable-x"), ("GALA", "gala")]

/-- Python's `str.upper()` (structural, so that it evaluates on
concrete tickers). -/
def pyUpper (s : String) : String := String.mk (s.data.map Char.toUpper)

/-- `CryptoService._get_coin_id(ticker)`: `CRYPTO_ID_MAP` lookup on the
uppercased ticker, no search fallback. -/
def get_coin_id (ticker : String) : Option String :=
  CRYPTO_ID_MAP.lookup (pyUpper ticker)

/-- Observable outcome of `get_prices_batch`: the returned results dict,
the cache file afterwards, and whether the network was hit. -/
structure BatchOut where
  results : List (String × Option PriceData)
  file : Option CryptoDoc
  fetched : Bool
  deriving DecidableEq, Repr

/-- `CryptoService.get_prices_batch(tickers, force_refresh)` from
`services/crypto_service.py`.  `fetch` is the outcome of the CoinGecko
`simple/price` call, as a map from coin id to response row
(`Except.error` models a raised exception).  Result values are `none`
where Python stores `None`. -/
def get_prices_batch (file : Option CryptoDoc) (now : ℚ) (tickers : List String)
    (force_refresh : Bool) (fetch : Except Unit (List (String × CoinRaw))) : BatchOut :=
  let cached := if force_refresh then [] else crypto_read_cache file now
  let start : List (String × Option PriceData) × List String := ([], [])
  let pass1 :=
    tickers.foldl
      (fun acc ticker =>
        let t := pyUpper ticker
        match cached.lookup t with
        | some v => (acc.1 ++ [(t, some v)], acc.2)
        | none => (acc.1, acc.2 ++ [t]))
      start
  let results := pass1.1
  let tickers_to_fetch := pass1.2
  if tickers_to_fetch = [] then
    { results := results, file := file, fetched := false }
  else
    let coin_ids :=
      tickers_to_fetch.filterMap
        (fun t => (get_coin_id t).map (fun cid => (t, cid)))
    if coin_ids = [] then
      { results := results ++ tickers_to_fetch.map (fun t => (t, none)),
        file := file, fetched := false }
    else
      match fetch with
      | .ok data =>
        let pass2 :=
          coin_ids.foldl
            (fun acc tc =>
              match data.lookup tc.2 with
              | some raw =>
                let price_data : PriceData :=
                  { ticker := tc.1, coinId := tc.2, price := raw.usd,
                    change24h := raw.usd_24h_change, marketCap := raw.usd_market_cap,
                    volume24h := raw.usd_24h_vol }
                (acc.1 ++ [(tc.1, some price_data)], acc.2 ++ [(tc.1, price_data)])
              | none => (acc.1 ++ [(tc.1, (none : Option PriceData))], acc.2))
            (results, ([] : List (String × PriceData)))
        let fresh_prices := pass2.2
        let file' :=
          if fresh_prices = [] then file
          else some (crypto_write_cache file now fresh_prices)
        let results' :=
          tickers.foldl
            (fun acc ticker =>
              if (acc.lookup (pyUpper ticker)).isNone then acc ++ [(pyUpper ticker, none)]
              else acc)
            pass2.1
        { results := results', file := file', fetched := true }
      | .error _ =>
        let afterExcept :=
          tickers_to_fetch.foldl
            (fun acc t =>
              if (acc.lookup t).isNone then acc ++ [(t, none)] else acc)
            results
        let results' :=
          tickers.foldl
            (fun acc ticker =>
              if (acc.lookup (pyUpper ticker)).isNone then acc ++ [(pyUpper ticker, none)]
              else acc)
            afterExcept
        { results := results', file := file, fetched := true }

/-! ## Snapshot store and performance engine:
`services/portfolio_snapshot_service.py`

Calendar days are integers; the `YYYY-MM-DD` keys of `snapshots.json` are
in bijection with day numbers, with lexicographic string order agreeing
with day order and `timedelta(days=i)` with integer subtraction. -/

/-- One `byAssetType` bucket inside a stored snapshot.  `get_performance`
reads these with `.get(..., 0)` defaults, and a hand-written snapshot may
omit keys, so the snapshot's `byAssetType` below is an association list
that may lack entries. -/
structure SnapBucket where
  value : ℚ
  cost : ℚ
  gainLoss : ℚ
  count : ℕ
  deriving DecidableEq, Repr

/-- One stored snapshot (the value of one date key of `snapshots.json`). -/
structure Snapshot where
  totalValue : ℚ
  totalCost : ℚ
  totalGainLoss : ℚ
  totalGainLossPercent : ℚ
  byAssetType : List (String × SnapBucket)
  takenAt : ℚ
  deriving DecidableEq, Repr

def defaultSnapshot : Snapshot :=
  { totalValue := 0, totalCost := 0, totalGainLoss := 0, totalGainLossPercent := 0,
    byAssetType := [], takenAt := 0 }

/-- The `snapshots.json` contents: a date-keyed dict of snapshots. -/
def SnapStore : Type := List (ℤ × Snapshot)

instance : DecidableEq SnapStore := by
  unfold SnapStore
  infer_instance

/-- `snapshots[today] = snapshot` (dict assignment, lookup semantics). -/
def storeInsert (store : SnapStore) (day : ℤ) (snap : Snapshot) : SnapStore :=
  (day, snap) :: (store.filter (fun p => p.1 ≠ day) : List (ℤ × Snapshot))

theorem lookup_storeInsert_self (store : SnapStore) (day : ℤ) (snap : Snapshot) :
    (storeInsert store day snap).lookup day = some snap := by
  simp [storeInsert, List.lookup]

/-- `PortfolioSnapshotService.has_today_snapshot()`. -/
def has_today_snapshot (store : SnapStore) (today : ℤ) : Bool :=
  ((store.lookup today : Option Snapshot)).isSome

/-- What `save_snapshot` returns:
`{"date": ..., "alreadyExists": ..., **snapshot}`. -/
structure SaveResult where
  date : ℤ
  alreadyExists : Bool
  snap : Snapshot
  deriving DecidableEq, Repr

/-- The snapshot dict `save_snapshot` builds from a summary: the four
totals, the five fixed asset-type buckets copied with `.get(..., 0)`
defaults (always present on a `Summary`), and `takenAt = now`. -/
def snapshotOfSummary (summary : Summary) (takenAt : ℚ) : Snapshot :=
  let toSnap : Bucket → SnapBucket := fun b =>
    { value := b.value, cost := b.cost, gainLoss := b.gainLoss, count := b.count }
  { totalValue := summary.totalValue, totalCost := summary.totalCost,
    totalGainLoss := summary.totalGainLoss,
    totalGainLossPercent := summary.totalGainLossPercent,
    byAssetType :=
      [("stock", toSnap summary.byAssetType.stock),
       ("etf", toSnap summary.byAssetType.etf),
       ("crypto", toSnap summary.byAssetType.crypto),
       ("custom", toSnap summary.byAssetType.custom),
       ("cash", toSnap summary.byAssetType.cash)],
    takenAt := takenAt }

/-- `PortfolioSnapshotService.save_snapshot(summary, force)`: when
today's entry exists and `force` is false, return it annotated
`alreadyExists` and leave the store untouched; otherwise build a snapshot
from the summary, store it under today and return it. -/
def save_snapshot (store : SnapStore) (today : ℤ) (summary : Summary)
    (force : Bool) (now : ℚ) : SaveResult × SnapStore :=
  match (store.lookup today : Option Snapshot), force with
  | some existing, false =>
    ({ date := today, alreadyExists := true, snap := existing }, store)
  | _, _ =>
    let snapshot := snapshotOfSummary summary now
    ({ date := today, alreadyExists := false, snap := snapshot },
     storeInsert store today snapshot)

/-- The `for i in range(4)` loop of `get_nearest_snapshot`: try
`target - i` for the given offsets in order. -/
def nearestAux (store : SnapStore) (target : ℤ) : List ℤ → Option (ℤ × Snapshot)
  | [] => none
  | i :: rest =>
    match (store.lookup (target - i) : Option Snapshot) with
    | some s => some (target - i, s)
    | none => nearestAux store target rest

/-- `PortfolioSnapshotService.get_nearest_snapshot(target_date)`: empty
store short-circuits to `None`; otherwise look backwards day by day over
offsets `0, 1, 2, 3` and return the first date that has an entry,
together with its snapshot. -/
def get_nearest_snapshot (store : SnapStore) (target : ℤ) : Option (ℤ × Snapshot) :=
  if store = ([] : SnapStore) then none
  else nearestAux store target [0, 1, 2, 3]

/-- Python's `round` on an exact value: nearest integer, ties to even. -/
def pyRound (x : ℚ) : ℤ :=
  let f := ⌊x⌋
  let r := x - (f : ℚ)
  if r < 1 / 2 then f
  else if 1 / 2 < r then f + 1
  else if f % 2 = 0 then f else f + 1

/-- `round(x, 2)`. -/
def round2 (x : ℚ) : ℚ := (pyRound (100 * x) : ℚ) / 100

/-- Insertion into a date-ascending list, for the
`result.sort(key=lambda x: x["date"])` call. -/
def insertByDate (p : ℤ × Snapshot) : List (ℤ × Snapshot) → List (ℤ × Snapshot)
  | [] => [p]
  | q :: rest => if p.1 ≤ q.1 then p :: q :: rest else q :: insertByDate p rest

def sortByDate : List (ℤ × Snapshot) → List (ℤ × Snapshot)
  | [] => []
  | p :: rest => insertByDate p (sortByDate rest)

/-- `PortfolioSnapshotService.get_snapshots(days)`: entries dated on or
after `today - days`, sorted ascending by date. -/
def get_snapshots (store : SnapStore) (today : ℤ) (days : ℤ) : List (ℤ × Snapshot) :=
  let cutoff := today - days
  sortByDate ((store.filter (fun p => cutoff ≤ p.1) : SnapStore))

/-- One per-asset-type row of a period's `byAssetType` breakdown. -/
structure TypePerf where
  previousValue : ℚ
  currentValue : ℚ
  change : ℚ
  changePercent : ℚ
  deriving DecidableEq, Repr

/-- One non-null period entry of `get_performance`. -/
structure PeriodPerf where
  fromDate : ℤ
  toDate : ℤ
  previousValue : ℚ
  currentValue : ℚ
  change : ℚ
  changePercent : ℚ
  byAssetType : List (String × TypePerf)
  deriving DecidableEq, Repr

/-- `sorted(snapshots.keys())[-1]`: the latest date of a non-empty
store (`0` as an unused placeholder on the empty store). -/
def latestDate : SnapStore → ℤ
  | [] => 0
  | p :: rest => rest.foldl (fun acc q => max acc q.1) p.1

/-- `past.get("byAssetType", {}).get(asset_type, {}).get("value", 0)`. -/
def typeValue (snap : Snapshot) (assetType : String) : ℚ :=
  ((snap.byAssetType.lookup assetType).map SnapBucket.value).getD 0

/-- The body of the period loop in `get_performance`, for one resolved
target date: `None` when no snapshot lies within the lookback bound, else
the change/percent record with the per-asset-type breakdown. -/
def mkPeriod (store : SnapStore) (latest : Snapshot) (latest_date : ℤ)
    (target : ℤ) : Option PeriodPerf :=
  match get_nearest_snapshot store target with
  | none => none
  | some (past_date, past) =>
    let past_value := past.totalValue
    let current_value := latest.totalValue
    let total_change := current_value - past_value
    let total_change_pct :=
      if 0 < past_value then total_change / past_value * 100 else 0
    let by_type :=
      ["stock", "etf", "crypto", "custom", "cash"].map
        (fun assetType =>
          let past_val := typeValue past assetType
          let curr_val := typeValue latest assetType
          let change := curr_val - past_val
          let change_pct := if 0 < past_val then change / past_val * 100 else 0
          (assetType,
           ({ previousValue := past_val, currentValue := curr_val,
              change := change, changePercent := round2 change_pct } : TypePerf)))
    some { fromDate := past_date, toDate := latest_date,
           previousValue := past_value, currentValue := current_value,
           change := round2 total_change, changePercent := round2 total_change_pct,
           byAssetType := by_type }

/-- What `get_performance` returns: the period dict (a key is absent
altogether on the empty store; a present key maps to `None` or to a
period record) and the 90-day history. -/
structure Performance where
  periods : List (String × Option PeriodPerf)
  history : List (ℤ × Snapshot)
  deriving DecidableEq, Repr

/-- `PortfolioSnapshotService.get_performance()`; `janFirst` is the day
number of `f"{today.year}-01-01"`. -/
def get_performance (store : SnapStore) (today : ℤ) (janFirst : ℤ) : Performance :=
  if store = ([] : SnapStore) then { periods := [], history := [] }
  else
    let latest_date := latestDate store
    let latest := ((store.lookup latest_date : Option Snapshot)).getD defaultSnapshot
    let targets : List (String × ℤ) :=
      [("1W", today - 7), ("1M", today - 30), ("3M", today - 90), ("YTD", janFirst)]
    { periods := targets.map (fun lt => (lt.1, mkPeriod store latest latest_date lt.2)),
      history := get_snapshots store today 90 }

/-! ## Helper lemmas about `calculate_summary` -/

theorem getBucket_cash (b : ByAssetType) : getBucket b "cash" = some b.cash := rfl

theorem setBucket_cash (b : ByAssetType) (v : Bucket) :
    setBucket b "cash" v = { b with cash := v } := rfl

theorem summaryStep_cash (s : Summary) (c : EnrichedHolding)
    (hc : c.assetType = "cash") :
    (summaryStep s c).totalCost = s.totalCost ∧
    (summaryStep s c).totalValue = s.totalValue + c.currentValue.getD 0 ∧
    (summaryStep s c).byAssetType.cash.value
      = s.byAssetType.cash.value + c.currentValue.getD 0 ∧
    (summaryStep s c).byAssetType.cash.cost
      = s.byAssetType.cash.cost + c.totalCost := by
  cases hcv : c.currentValue <;> cases hgl : c.gainLoss <;>
    simp [summaryStep, summaryStepBuckets, summaryStepCost, hc, hcv, hgl,
      getBucket_cash, setBucket_cash, bumpBucket]

theorem summaryStepBuckets_percent (s : Summary) (h : EnrichedHolding) :
    (summaryStepBuckets s h).totalGainLossPercent = s.totalGainLossPercent := by
  unfold summaryStepBuckets
  cases getBucket s.byAssetType h.assetType <;> rfl

theorem summaryStepCost_percent (s : Summary) (h : EnrichedHolding) :
    (summaryStepCost s h).totalGainLossPercent = s.totalGainLossPercent := by
  unfold summaryStepCost
  split <;> rfl

theorem summaryStep_totalGainLossPercent (s : Summary) (h : EnrichedHolding) :
    (summaryStep s h).totalGainLossPercent = s.totalGainLossPercent := by
  unfold summaryStep
  rw [summaryStepCost_percent, summaryStepBuckets_percent]

theorem foldl_totalGainLossPercent (hs : List EnrichedHolding) :
    ∀ s : Summary, (hs.foldl summaryStep s).totalGainLossPercent
      = s.totalGainLossPercent := by
  induction hs with
  | nil => intro s; rfl
  | cons h t ih =>
    intro s
    rw [List.foldl_cons, ih, summaryStep_totalGainLossPercent]

theorem applyPercentTotal_totalCost (s : Summary) :
    (applyPercentTotal s).totalCost = s.totalCost := by
  unfold applyPercentTotal; split <;> rfl

theorem applyPercentTotal_totalValue (s : Summary) :
    (applyPercentTotal s).totalValue = s.totalValue := by
  unfold applyPercentTotal; split <;> rfl

theorem applyPercentTotal_totalGainLoss (s : Summary) :
    (applyPercentTotal s).totalGainLoss = s.totalGainLoss := by
  unfold applyPercentTotal; split <;> rfl

theorem applyPercentTotal_byAssetType (s : Summary) :
    (applyPercentTotal s).byAssetType = s.byAssetType := by
  unfold applyPercentTotal; split <;> rfl

theorem applyPercentTotal_percent (s : Summary) :
    (applyPercentTotal s).totalGainLossPercent
      = if 0 < s.totalCost then s.totalGainLoss / s.totalCost * 100
        else s.totalGainLossPercent := by
  unfold applyPercentTotal
  split <;> simp [*]

/-! ## Claim C1 -/

/-- The spec's cash-exclusion example: one stock holding enriched to
`totalCost = 1000`, `currentValue = 1200` (hence `gainLoss = 200`) and one
cash holding enriched to `totalCost = 5000`, `currentValue = 5000`
(`gainLoss = 0`). -/
def stockEx : EnrichedHolding :=
  { assetType := "stock", totalCost := 1000, currentValue := some 1200,
    gainLoss := some 200 }

def cashEx : EnrichedHolding :=
  { assetType := "cash", totalCost := 5000, currentValue := some 5000,
    gainLoss := some 0 }

def stockOnly : List EnrichedHolding := [stockEx]

def exC1 : List EnrichedHolding := [stockEx, cashEx]

/-- The summary state after folding the stock holding of the example. -/
def exC1AfterStock : Summary :=
  { totalValue := 1200, totalCost := 1000, totalGainLoss := 200,
    totalGainLossPercent := 0,
    byAssetType :=
      { stock := { count := 1, value := 1200, cost := 1000, gainLoss := 200 },
        etf := zeroBucket, crypto := zeroBucket, custom := zeroBucket,
        cash := zeroBucket } }

/-- The summary state after folding both example holdings (before the
final percent computation). -/
def exC1AfterCash : Summary :=
  { totalValue := 6200, totalCost := 1000, totalGainLoss := 200,
    totalGainLossPercent := 0,
    byAssetType :=
      { stock := { count := 1, value := 1200, cost := 1000, gainLoss := 200 },
        etf := zeroBucket, crypto := zeroBucket, custom := zeroBucket,
        cash := { count := 1, value := 5000, cost := 5000, gainLoss := 0 } } }

theorem calculate_summary_exC1 :
    calculate_summary exC1 = { exC1AfterCash with totalGainLossPercent := 20 } := by
  have h1 : summaryStep initialSummary stockEx = exC1AfterStock := by
    simp [summaryStep, summaryStepBuckets, summaryStepCost, getBucket, setBucket,
      bumpBucket, initialSummary, zeroBucket, stockEx, exC1AfterStock]
  have h2 : summaryStep exC1AfterStock cashEx = exC1AfterCash := by
    simp [summaryStep, summaryStepBuckets, summaryStepCost, getBucket, setBucket,
      bumpBucket, cashEx, exC1AfterStock, exC1AfterCash, zeroBucket]
    norm_num
  unfold calculate_summary exC1
  rw [List.foldl_cons, h1, List.foldl_cons, h2, List.foldl_nil]
  simp [applyPercentTotal, exC1AfterCash, zeroBucket]
  norm_num

/-- Claim C1, counterexample: on the claim's own example (stock holding
with totalCost 1000 and currentValue 1200 plus a cash holding with cost
and value 5000), `calculate_summary` does return `totalCost = 1000` and
`totalValue = 6200`, but `totalGainLossPercent` is `200 / 1000 × 100 =
20`, not the claimed `50`. -/
theorem c1_counterexample :
    (calculate_summary exC1).totalCost = 1000 ∧
    (calculate_summary exC1).totalValue = 6200 ∧
    (calculate_summary exC1).totalGainLossPercent = 20 ∧
    ¬ (calculate_summary exC1).totalGainLossPercent = 50 := by
  rw [calculate_summary_exC1]
  refine ⟨rfl, rfl, rfl, ?_⟩
  norm_num [exC1AfterCash]

/-- Claim C1, amended: for every list of enriched holdings,
`calculate_summary` excludes a cash holding's cost from `totalCost` while
still adding its value to `totalValue` and to the cash `byAssetType`
bucket, and computes `totalGainLossPercent = totalGainLoss / totalCost ×
100` over this cash-free denominator (`0` when `totalCost` is not
positive); on the example the result is `totalCost = 1000`, `totalValue =
6200`, `totalGainLossPercent = 20`. -/
theorem c1_cash_exclusion :
    (∀ (hs : List EnrichedHolding) (c : EnrichedHolding), c.assetType = "cash" →
      (calculate_summary (hs ++ [c])).totalCost = (calculate_summary hs).totalCost ∧
      (calculate_summary (hs ++ [c])).totalValue
        = (calculate_summary hs).totalValue + c.currentValue.getD 0 ∧
      (calculate_summary (hs ++ [c])).byAssetType.cash.value
        = (calculate_summary hs).byAssetType.cash.value + c.currentValue.getD 0) ∧
    (∀ hs : List EnrichedHolding,
      (calculate_summary hs).totalGainLossPercent
        = if 0 < (calculate_summary hs).totalCost then
            (calculate_summary hs).totalGainLoss / (calculate_summary hs).totalCost * 100
          else 0) ∧
    ((calculate_summary exC1).totalCost = 1000 ∧
     (calculate_summary exC1).totalValue = 6200 ∧
     (calculate_summary exC1).totalGainLossPercent = 20) := by
  refine ⟨?_, ?_, by rw [calculate_summary_exC1]; exact ⟨rfl, rfl, rfl⟩⟩
  · intro hs c hc
    have key := summaryStep_cash (hs.foldl summaryStep initialSummary) c hc
    unfold calculate_summary
    rw [List.foldl_append]
    simp only [List.foldl_cons, List.foldl_nil]
    refine ⟨?_, ?_, ?_⟩
    · rw [applyPercentTotal_totalCost, applyPercentTotal_totalCost, key.1]
    · rw [applyPercentTotal_totalValue, applyPercentTotal_totalValue, key.2.1]
    · rw [applyPercentTotal_byAssetType, applyPercentTotal_byAssetType, key.2.2.1]
  · intro hs
    unfold calculate_summary
    rw [applyPercentTotal_percent, applyPercentTotal_totalCost,
      applyPercentTotal_totalGainLoss]
    split
    · rfl
    · rw [foldl_totalGainLossPercent]
      rfl

/-- Witness for `c1_cash_exclusion` at the concrete example: appending
the cash holding to the stock-only portfolio leaves `totalCost`
unchanged. -/
theorem c1_cash_exclusion_witness :
    (calculate_summary (stockOnly ++ [cashEx])).totalCost
      = (calculate_summary stockOnly).totalCost ∧
    (calculate_summary (stockOnly ++ [cashEx])).totalValue
      = (calculate_summary stockOnly).totalValue + cashEx.currentValue.getD 0 :=
  ⟨(c1_cash_exclusion.1 stockOnly cashEx rfl).1,
   (c1_cash_exclusion.1 stockOnly cashEx rfl).2.1⟩

/-! ## Claim C4 -/

/-- An enriched `option` holding: 5 contracts at premium cost basis 3.50,
which with the claimed 100× contract multiplier would be enriched to
`totalCost = currentValue = 1750`. -/
def optionEnriched : EnrichedHolding :=
  { assetType := "option", totalCost := 1750, currentValue := some 1750,
    gainLoss := some 0 }

/-- Claim C4, evaluation at the failing input: `get_portfolio`'s
partition routes an `option`-typed holding into the stock/ETF path (it is
priced by a `profile` lookup on its raw ticker — the options service and
its contract multiplier are never consulted), and `calculate_summary` has
no `option` bucket, so the holding's `currentValue` is dropped from
`totalValue` entirely; only its cost reaches `totalCost`. -/
theorem c4_divergence :
    routeOf "option" = "stock_etf" ∧
    getBucket (calculate_summary [optionEnriched]).byAssetType "option" = none ∧
    (calculate_summary [optionEnriched]).totalValue = 0 ∧
    (calculate_summary [optionEnriched]).totalCost = 1750 := by
  have h1 : summaryStep initialSummary optionEnriched
      = { initialSummary with totalCost := 1750 } := by
    simp [summaryStep, summaryStepBuckets, summaryStepCost, getBucket, setBucket,
      bumpBucket, initialSummary, zeroBucket, optionEnriched]
  have h2 : calculate_summary [optionEnriched]
      = { initialSummary with totalCost := 1750 } := by
    unfold calculate_summary
    rw [List.foldl_cons, h1, List.foldl_nil]
    simp [applyPercentTotal, initialSummary]
  rw [h2]
  exact ⟨rfl, rfl, rfl, rfl⟩

/-! ## Claim C5 -/

/-- Claim C5, confirmed: for a holding whose price lookup failed or
yielded no price (`price = none`), both `enrich_holding` and
`_enrich_for_snapshot` leave `currentValue`, `gainLoss` and
`gainLossPercent` null; for a known price `p`, `gainLoss = currentValue −
totalCost` with `gainLossPercent = gainLoss / totalCost × 100` when
`totalCost > 0` and exactly `0` (not null) otherwise. -/
theorem c5_pricing (h : Holding) (price : Option ℚ) (nm im ind : Option String) :
    (price = none →
      (enrich_holding h price nm im ind).currentValue = none ∧
      (enrich_holding h price nm im ind).gainLoss = none ∧
      (enrich_holding h price nm im ind).gainLossPercent = none ∧
      (enrich_for_snapshot h price).currentValue = none ∧
      (enrich_for_snapshot h price).gainLoss = none ∧
      (enrich_for_snapshot h price).gainLossPercent = none) ∧
    (∀ p : ℚ, price = some p →
      (enrich_holding h price nm im ind).currentValue = some (h.quantity * p) ∧
      (enrich_holding h price nm im ind).totalCost = h.quantity * h.costBasis ∧
      (enrich_holding h price nm im ind).gainLoss
        = some (h.quantity * p - h.quantity * h.costBasis) ∧
      (0 < h.quantity * h.costBasis →
        (enrich_holding h price nm im ind).gainLossPercent
          = some ((h.quantity * p - h.quantity * h.costBasis)
                  / (h.quantity * h.costBasis) * 100)) ∧
      (¬ 0 < h.quantity * h.costBasis →
        (enrich_holding h price nm im ind).gainLossPercent = some 0) ∧
      (enrich_for_snapshot h price).gainLoss
        = some (h.quantity * p - h.quantity * h.costBasis) ∧
      (0 < h.quantity * h.costBasis →
        (enrich_for_snapshot h price).gainLossPercent
          = some ((h.quantity * p - h.quantity * h.costBasis)
                  / (h.quantity * h.costBasis) * 100)) ∧
      (¬ 0 < h.quantity * h.costBasis →
        (enrich_for_snapshot h price).gainLossPercent = some 0)) := by
  constructor
  · intro hnone
    subst hnone
    simp [enrich_holding, enrich_for_snapshot]
  · intro p hp
    subst hp
    refine ⟨rfl, rfl, rfl, ?_, ?_, rfl, ?_, ?_⟩ <;>
      intro hpos <;>
      simp [enrich_holding, enrich_for_snapshot, hpos]

/-- Witness for `c5_pricing`: a holding of 10 units at cost basis 100,
once priced at 120 and once with a failed lookup. -/
theorem c5_pricing_witness :
    (enrich_holding ⟨10, 100⟩ (some 120) none none none).gainLoss = some 200 ∧
    (enrich_holding ⟨10, 100⟩ (some 120) none none none).gainLossPercent = some 20 ∧
    (enrich_for_snapshot ⟨10, 100⟩ none).gainLoss = none := by
  have hknown := (c5_pricing ⟨10, 100⟩ (some 120) none none none).2 120 rfl
  have hnone := (c5_pricing ⟨10, 100⟩ none none none none).1 rfl
  refine ⟨?_, ?_, hnone.2.2.2.2.1⟩
  · rw [hknown.2.2.1]; norm_num
  · rw [hknown.2.2.2.1 (by norm_num)]; norm_num

/-! ## Claim C2 -/

/-- Claim C2, confirmed: a cached entry is classified fresh iff the
current time is strictly before `fetchedAt` plus the endpoint's TTL from
the `TTL_DAYS` policy table (equivalently, an entry fetched `t` days ago
is fresh iff `t < ttl`); quarterly income data 30 days old is fresh and
100 days old is stale (90-day TTL); and a call to `get` that finds a
fresh entry without `force_refresh` returns the stored payload without
invoking the fetcher. -/
theorem c2_freshness :
    (∀ (α : Type) (e : FMPEntry α) (endpoint : String) (now t ttl : ℚ),
      TTL_DAYS.lookup endpoint = some ttl →
      now = e.fetched_at + t →
      (fmp_is_fresh (some e) endpoint now = true ↔ t < ttl)) ∧
    (∀ (α : Type) (e : FMPEntry α),
      fmp_is_fresh (some e) "income_quarterly" (e.fetched_at + 30) = true ∧
      fmp_is_fresh (some e) "income_quarterly" (e.fetched_at + 100) = false) ∧
    (∀ (α : Type) (e : FMPEntry α) (symbol endpoint : String) (now : ℚ)
      (fetch : Except Unit (Option α)) (isError : α → Bool),
      fmp_is_fresh (some e) endpoint now = true →
      fmp_get (some e) symbol endpoint now false fetch isError
        = { result := FMPResult.ok (some e.data), disk := some e,
            fetcherCalled := false }) := by
  refine ⟨?_, ?_, ?_⟩
  · intro α e endpoint now t ttl hlook hnow
    subst hnow
    simp [fmp_is_fresh, ttlDaysOf, hlook]
  · intro α e
    have hq : ttlDaysOf "income_quarterly" = 90 := rfl
    constructor
    · simp [fmp_is_fresh, hq]
      norm_num
    · simp [fmp_is_fresh, hq]
      norm_num
  · intro α e symbol endpoint now fetch isError hfresh
    simp [fmp_get, hfresh]

/-- A quarterly-income cache entry fetched at day 0. -/
def fmpQuarterlyEntry : FMPEntry ℚ :=
  { symbol := "AAPL", endpoint := "income_quarterly", fetched_at := 0,
    ttl_days := 90, data := 7 }

/-- Witness for `c2_freshness`: the quarterly entry at day 30 is fresh
and is served from cache without a fetch. -/
theorem c2_freshness_witness :
    (fmp_is_fresh (some fmpQuarterlyEntry) "income_quarterly" 30 = true ↔ (30 : ℚ) < 90) ∧
    fmp_get (some fmpQuarterlyEntry) "AAPL" "income_quarterly" 30 false
        (Except.error ()) (fun _ => false)
      = { result := FMPResult.ok (some 7), disk := some fmpQuarterlyEntry,
          fetcherCalled := false } := by
  have hiff := c2_freshness.1 ℚ fmpQuarterlyEntry "income_quarterly" 30 30 90 rfl
    (by norm_num [fmpQuarterlyEntry])
  refine ⟨hiff, ?_⟩
  have hfresh : fmp_is_fresh (some fmpQuarterlyEntry) "income_quarterly" 30 = true :=
    hiff.mpr (by norm_num)
  have hget := c2_freshness.2.2 ℚ fmpQuarterlyEntry "AAPL" "income_quarterly" 30
    (Except.error ()) (fun _ => false) hfresh
  simpa [fmpQuarterlyEntry] using hget

/-! ## Claim C3 -/

/-- A stale `profile` cache document (fetched at day 0, read at day 100,
1-day TTL). -/
def fmpStaleEntry : FMPEntry ℚ :=
  { symbol := "AAPL", endpoint := "profile", fetched_at := 0, ttl_days := 1,
    data := 42 }

/-- Claim C3, evaluated at the failing input: when the fetch raises,
`get` without `force_refresh` returns the stale stored payload if one
exists and `None` otherwise, exactly as claimed — but with
`force_refresh=True` the local variable `cached` is never assigned, so
the `except` handler's `if cached:` raises `UnboundLocalError` even
though a prior entry exists on disk. -/
theorem c3_divergence :
    (fmp_get (some fmpStaleEntry) "AAPL" "profile" 100 false (Except.error ())
        (fun _ => false)).result = FMPResult.ok (some 42) ∧
    (fmp_get (none : Option (FMPEntry ℚ)) "AAPL" "profile" 100 false (Except.error ())
        (fun _ => false)).result = FMPResult.ok none ∧
    (fmp_get (some fmpStaleEntry) "AAPL" "profile" 100 true (Except.error ())
        (fun _ => false)).result = FMPResult.raised := by
  have hstale : fmp_is_fresh (some fmpStaleEntry) "profile" 100 = false := by
    have hT : ttlDaysOf "profile" = 1 := rfl
    simp [fmp_is_fresh, fmpStaleEntry, hT]
  refine ⟨?_, ?_, ?_⟩
  · have hrun : fmp_get (some fmpStaleEntry) "AAPL" "profile" 100 false
        (Except.error ()) (fun _ => false)
        = { result := FMPResult.ok (some fmpStaleEntry.data),
            disk := some fmpStaleEntry, fetcherCalled := true } := by
      simp [fmp_get, hstale, fmp_fetch_path]
    rw [hrun]
    rfl
  · simp [fmp_get, fmp_fetch_path]
  · simp [fmp_get, fmp_fetch_path]

/-! ## Claim C6 -/

/-- Claim C6, confirmed: caching a fetched price for symbol `A`, then —
while `A`'s entry is still fresh — caching a price for a distinct symbol
`B` into the same batch document, leaves `A`'s price retrievable: the
write merges `B` into the stored prices object instead of replacing it,
and a later `get_prices_batch` for `A` is served entirely from cache
without touching the network. -/
theorem c6_merge (file : Option CryptoDoc) (t0 t1 t2 : ℚ) (A B : String)
    (pa pb : PriceData) (d2 : CryptoDoc)
    (hAB : A ≠ B) (hA : pyUpper A = A)
    (h01 : t1 - t0 < CACHE_TTL_HOURS) (h12 : t2 - t1 < CACHE_TTL_HOURS)
    (hd2 : d2 = crypto_write_cache (some (crypto_write_cache file t0 [(A, pa)]))
      t1 [(B, pb)]) :
    (crypto_read_cache (some d2) t2).lookup A = some pa ∧
    (crypto_read_cache (some d2) t2).lookup B = some pb ∧
    get_prices_batch (some d2) t2 [A] false (Except.error ())
      = { results := [(A, some pa)], file := some d2, fetched := false } := by
  have hBA : (([(B, pb)] : List (String × PriceData)).lookup A) = none := by
    have hne : (A == B) = false := beq_eq_false_iff_ne.mpr hAB
    simp [List.lookup, hne]
  have hread2 : crypto_read_cache (some d2) t2 = d2.prices := by
    apply crypto_read_fresh
    rw [hd2]
    exact h12
  have hd1A : (crypto_write_cache file t0 [(A, pa)]).prices.lookup A = some pa := by
    show (dictUpdate (crypto_read_cache file t0) [(A, pa)]).lookup A = some pa
    rw [lookup_dictUpdate]
    simp [List.lookup]
  have hfresh1 : t1 - (crypto_write_cache file t0 [(A, pa)]).fetchedAt
      < CACHE_TTL_HOURS := h01
  have hp2 : d2.prices
      = dictUpdate (crypto_write_cache file t0 [(A, pa)]).prices [(B, pb)] := by
    rw [hd2]
    show dictUpdate (crypto_read_cache (some (crypto_write_cache file t0 [(A, pa)])) t1)
      [(B, pb)] = _
    rw [crypto_read_fresh _ _ hfresh1]
  have hlookA : d2.prices.lookup A = some pa := by
    rw [hp2, lookup_dictUpdate, hBA, hd1A]
    rfl
  have hlookB : d2.prices.lookup B = some pb := by
    rw [hp2, lookup_dictUpdate]
    simp [List.lookup]
  refine ⟨by rw [hread2]; exact hlookA, by rw [hread2]; exact hlookB, ?_⟩
  unfold get_prices_batch
  simp [hA, hread2, hlookA]

/-- Concrete BTC price entry for the crypto-cache witnesses. -/
def btcPD : PriceData :=
  { ticker := "BTC", coinId := "bitcoin", price := some 70000,
    change24h := none, marketCap := none, volume24h := none }

/-- Concrete ETH price entry for the crypto-cache witnesses. -/
def ethPD : PriceData :=
  { ticker := "ETH", coinId := "ethereum", price := some 2000,
    change24h := none, marketCap := none, volume24h := none }

/-- Witness for `c6_merge`: BTC cached at hour 0, ETH merged in at hour
6, BTC still retrievable (and batch-served from cache) at hour 7. -/
theorem c6_merge_witness :
    (crypto_read_cache
      (some (crypto_write_cache (some (crypto_write_cache none 0 [("BTC", btcPD)]))
        6 [("ETH", ethPD)])) 7).lookup "BTC" = some btcPD ∧
    get_prices_batch
      (some (crypto_write_cache (some (crypto_write_cache none 0 [("BTC", btcPD)]))
        6 [("ETH", ethPD)])) 7 ["BTC"] false (Except.error ())
      = { results := [("BTC", some btcPD)],
          file := some (crypto_write_cache
            (some (crypto_write_cache none 0 [("BTC", btcPD)])) 6 [("ETH", ethPD)]),
          fetched := false } := by
  have h := c6_merge none 0 6 7 "BTC" "ETH" btcPD ethPD
    (crypto_write_cache (some (crypto_write_cache none 0 [("BTC", btcPD)]))
      6 [("ETH", ethPD)])
    (by decide) (by decide)
    (by norm_num [CACHE_TTL_HOURS]) (by norm_num [CACHE_TTL_HOURS]) rfl
  exact ⟨h.1, h.2.2⟩

/-! ## Claim C10 -/

/-- Claim C10, confirmed: every `_write_cache` stamps the document with a
single `fetchedAt` equal to the write time; a symbol readable from the
cache at write time survives a merge of new symbols and stays readable
until a full TTL after the latest write; and a write over a document that
is already older than the TTL discards its previously stored symbols
instead of merging them. -/
theorem c10_write_stamp :
    (∀ (file : Option CryptoDoc) (now : ℚ) (prices : List (String × PriceData)),
      (crypto_write_cache file now prices).fetchedAt = now) ∧
    (∀ (d : CryptoDoc) (t1 t2 : ℚ) (A : String) (pa : PriceData)
      (newPrices : List (String × PriceData)),
      (crypto_read_cache (some d) t1).lookup A = some pa →
      newPrices.lookup A = none →
      t2 - t1 < CACHE_TTL_HOURS →
      (crypto_read_cache (some (crypto_write_cache (some d) t1 newPrices)) t2).lookup A
        = some pa) ∧
    (∀ (d : CryptoDoc) (t1 : ℚ) (A : String)
      (newPrices : List (String × PriceData)),
      ¬ (t1 - d.fetchedAt < CACHE_TTL_HOURS) →
      newPrices.lookup A = none →
      (crypto_write_cache (some d) t1 newPrices).prices.lookup A = none) := by
  refine ⟨fun file now prices => rfl, ?_, ?_⟩
  · intro d t1 t2 A pa newPrices hA hnew h12
    by_cases hfr : t1 - d.fetchedAt < CACHE_TTL_HOURS
    · have hAp : d.prices.lookup A = some pa := by
        rw [crypto_read_fresh d t1 hfr] at hA
        exact hA
      rw [crypto_read_fresh _ _ (by exact h12 : t2 - (crypto_write_cache (some d) t1 newPrices).fetchedAt < CACHE_TTL_HOURS)]
      show (dictUpdate (crypto_read_cache (some d) t1) newPrices).lookup A = some pa
      rw [lookup_dictUpdate, hnew, crypto_read_fresh d t1 hfr, hAp]
      rfl
    · rw [crypto_read_stale d t1 hfr] at hA
      simp [List.lookup] at hA
  · intro d t1 A newPrices hstale hnew
    show (dictUpdate (crypto_read_cache (some d) t1) newPrices).lookup A = none
    rw [lookup_dictUpdate, hnew, crypto_read_stale d t1 hstale]
    rfl

/-- Witness for `c10_write_stamp`: BTC cached at hour 0; a merge at hour
11 keeps BTC readable at hour 20 (9 hours after the merge, though 20
hours after BTC's own fetch); a write at hour 13 instead discards it. -/
theorem c10_write_stamp_witness :
    (crypto_write_cache (some { fetchedAt := 0, prices := [("BTC", btcPD)] })
      11 [("ETH", ethPD)]).fetchedAt = 11 ∧
    (crypto_read_cache
      (some (crypto_write_cache (some { fetchedAt := 0, prices := [("BTC", btcPD)] })
        11 [("ETH", ethPD)])) 20).lookup "BTC" = some btcPD ∧
    (crypto_write_cache (some { fetchedAt := 0, prices := [("BTC", btcPD)] })
      13 [("ETH", ethPD)]).prices.lookup "BTC" = none := by
  refine ⟨c10_write_stamp.1 _ 11 _, ?_, ?_⟩
  · refine c10_write_stamp.2.1 { fetchedAt := 0, prices := [("BTC", btcPD)] }
      11 20 "BTC" btcPD [("ETH", ethPD)] ?_ rfl (by norm_num [CACHE_TTL_HOURS])
    rw [crypto_read_fresh _ 11 (by norm_num [CACHE_TTL_HOURS])]
    rfl
  · exact c10_write_stamp.2.2 { fetchedAt := 0, prices := [("BTC", btcPD)] }
      13 "BTC" [("ETH", ethPD)] (by norm_num [CACHE_TTL_HOURS]) rfl

/-! ## Claim C7 -/

/-- Claim C7, confirmed: when today's entry already exists and `force` is
false, `save_snapshot` returns the existing entry annotated
`alreadyExists` and leaves the store untouched; hence two same-day calls
without `force` return the same stored values, with the second marked
"already exists". -/
theorem c7_idempotent :
    (∀ (store : SnapStore) (today : ℤ) (summary : Summary) (now : ℚ)
      (existing : Snapshot),
      (store.lookup today : Option Snapshot) = some existing →
      save_snapshot store today summary false now
        = ({ date := today, alreadyExists := true, snap := existing }, store)) ∧
    (∀ (store : SnapStore) (today : ℤ) (s1 s2 : Summary) (n1 n2 : ℚ),
      (store.lookup today : Option Snapshot) = none →
      (save_snapshot (save_snapshot store today s1 false n1).2 today s2 false n2).1.alreadyExists
        = true ∧
      (save_snapshot (save_snapshot store today s1 false n1).2 today s2 false n2).1.snap
        = (save_snapshot store today s1 false n1).1.snap ∧
      (save_snapshot (save_snapshot store today s1 false n1).2 today s2 false n2).2
        = (save_snapshot store today s1 false n1).2) := by
  have hexisting : ∀ (store : SnapStore) (today : ℤ) (summary : Summary) (now : ℚ)
      (existing : Snapshot),
      (store.lookup today : Option Snapshot) = some existing →
      save_snapshot store today summary false now
        = ({ date := today, alreadyExists := true, snap := existing }, store) := by
    intro store today summary now existing h
    simp [save_snapshot, h]
  refine ⟨hexisting, ?_⟩
  intro store today s1 s2 n1 n2 h
  have h1 : save_snapshot store today s1 false n1
      = ({ date := today, alreadyExists := false,
           snap := snapshotOfSummary s1 n1 },
         storeInsert store today (snapshotOfSummary s1 n1)) := by
    simp [save_snapshot, h]
  rw [h1]
  rw [hexisting _ today s2 n2 (snapshotOfSummary s1 n1) (lookup_storeInsert_self store today _)]
  exact ⟨rfl, rfl, rfl⟩

/-- Witness for `c7_idempotent`: saving twice on the same day into an
initially empty store. -/
theorem c7_idempotent_witness :
    (save_snapshot (save_snapshot ([] : SnapStore) 0 initialSummary false 1).2
      0 initialSummary false 2).1.alreadyExists = true ∧
    (save_snapshot (save_snapshot ([] : SnapStore) 0 initialSummary false 1).2
      0 initialSummary false 2).1.snap
      = (save_snapshot ([] : SnapStore) 0 initialSummary false 1).1.snap :=
  ⟨(c7_idempotent.2 [] 0 initialSummary initialSummary 1 2 rfl).1,
   (c7_idempotent.2 [] 0 initialSummary initialSummary 1 2 rfl).2.1⟩

/-! ## Claim C8 -/

/-- Claim C8, confirmed: the nearest-snapshot lookup searches backward
day by day over the fixed offsets `0..3` and returns the first existing
snapshot; in particular a snapshot dated 3 days before the target is
found, while one dated 10 days before is not (the lookup returns
`None`). -/
theorem c8_nearest :
    (∀ (store : SnapStore) (target j : ℤ) (s : Snapshot),
      0 ≤ j → j < 4 →
      (∀ i : ℤ, 0 ≤ i → i < j → (store.lookup (target - i) : Option Snapshot) = none) →
      (store.lookup (target - j) : Option Snapshot) = some s →
      get_nearest_snapshot store target = some (target - j, s)) ∧
    (∀ (store : SnapStore) (target : ℤ),
      (∀ i : ℤ, 0 ≤ i → i < 4 → (store.lookup (target - i) : Option Snapshot) = none) →
      get_nearest_snapshot store target = none) ∧
    (∀ (target : ℤ) (s : Snapshot),
      get_nearest_snapshot [(target - 3, s)] target = some (target - 3, s)) ∧
    (∀ (target : ℤ) (s : Snapshot),
      get_nearest_snapshot [(target - 10, s)] target = none) := by
  have part1 : ∀ (store : SnapStore) (target j : ℤ) (s : Snapshot),
      0 ≤ j → j < 4 →
      (∀ i : ℤ, 0 ≤ i → i < j → (store.lookup (target - i) : Option Snapshot) = none) →
      (store.lookup (target - j) : Option Snapshot) = some s →
      get_nearest_snapshot store target = some (target - j, s) := by
    intro store target j s hj0 hj4 hnone hfound
    have hne : store ≠ ([] : SnapStore) := by
      intro hempty
      rw [hempty] at hfound
      simp [List.lookup] at hfound
    unfold get_nearest_snapshot
    rw [if_neg hne]
    interval_cases j
    · rw [sub_zero] at hfound
      simp [nearestAux, hfound]
    · have h0 := hnone 0 (by norm_num) (by norm_num)
      rw [sub_zero] at h0
      simp [nearestAux, h0, hfound]
    · have h0 := hnone 0 (by norm_num) (by norm_num)
      have h1 := hnone 1 (by norm_num) (by norm_num)
      rw [sub_zero] at h0
      simp [nearestAux, h0, h1, hfound]
    · have h0 := hnone 0 (by norm_num) (by norm_num)
      have h1 := hnone 1 (by norm_num) (by norm_num)
      have h2 := hnone 2 (by norm_num) (by norm_num)
      rw [sub_zero] at h0
      simp [nearestAux, h0, h1, h2, hfound]
  have part2 : ∀ (store : SnapStore) (target : ℤ),
      (∀ i : ℤ, 0 ≤ i → i < 4 → (store.lookup (target - i) : Option Snapshot) = none) →
      get_nearest_snapshot store target = none := by
    intro store target hnone
    by_cases hne : store = ([] : SnapStore)
    · rw [hne]
      rfl
    · unfold get_nearest_snapshot
      rw [if_neg hne]
      have h0 := hnone 0 (by norm_num) (by norm_num)
      have h1 := hnone 1 (by norm_num) (by norm_num)
      have h2 := hnone 2 (by norm_num) (by norm_num)
      have h3 := hnone 3 (by norm_num) (by norm_num)
      rw [sub_zero] at h0
      simp [nearestAux, h0, h1, h2, h3]
  refine ⟨part1, part2, ?_, ?_⟩
  · intro target s
    apply part1 _ _ 3 s (by norm_num) (by norm_num)
    · intro i hi0 hi3
      have hi : (target - i == target - 3) = false :=
        beq_eq_false_iff_ne.mpr (by omega)
      simp [List.lookup, hi]
    · simp [List.lookup]
  · intro target s
    apply part2
    intro i hi0 hi4
    have hi : (target - i == target - 10) = false :=
      beq_eq_false_iff_ne.mpr (by omega)
    simp [List.lookup, hi]

/-- Witness for `c8_nearest`: a lone snapshot 3 days back is found, a
lone snapshot 10 days back is not. -/
theorem c8_nearest_witness :
    get_nearest_snapshot [((-3 : ℤ), defaultSnapshot)] 0
      = some (-3, defaultSnapshot) ∧
    get_nearest_snapshot [((-10 : ℤ), defaultSnapshot)] 0 = none := by
  constructor
  · have h := c8_nearest.2.2.1 0 defaultSnapshot
    norm_num at h
    exact h
  · have h := c8_nearest.2.2.2 0 defaultSnapshot
    norm_num at h
    exact h

/-! ## Claim C9 -/

/-- Claim C9, counterexample: on an empty snapshot store,
`get_performance` returns an empty `periods` dict — it contains no entry
at all for `1W` (or any other window), contradicting the claim that the
periods structure always has an entry for each window. -/
theorem c9_counterexample :
    (get_performance ([] : SnapStore) 0 0).periods = [] ∧
    ((get_performance ([] : SnapStore) 0 0).periods.lookup "1W"
      : Option (Option PeriodPerf)) = none :=
  ⟨rfl, rfl⟩

/-- Claim C9, amended: for every non-empty snapshot store, the periods
structure has exactly the entries `1W`, `1M`, `3M`, `YTD`; a window whose
nearest-snapshot lookup finds nothing is mapped to null (present, not
omitted); and a window with a found snapshot reports
`change = current.totalValue − past.totalValue` rounded to two decimals,
with `changePercent` (likewise rounded) computed from the prior value
only when it is positive and `0` otherwise.  (On an empty store `periods`
is the empty dict.) -/
theorem c9_periods (store : SnapStore) (today janFirst : ℤ)
    (hne : store ≠ ([] : SnapStore)) :
    ((get_performance store today janFirst).periods.map Prod.fst
      = ["1W", "1M", "3M", "YTD"]) ∧
    (∀ lt : String × ℤ,
      lt ∈ [("1W", today - 7), ("1M", today - 30), ("3M", today - 90),
            ("YTD", janFirst)] →
      (get_nearest_snapshot store lt.2 = none →
        (get_performance store today janFirst).periods.lookup lt.1 = some none) ∧
      (∀ (d : ℤ) (past : Snapshot),
        get_nearest_snapshot store lt.2 = some (d, past) →
        ∃ p : PeriodPerf,
          (get_performance store today janFirst).periods.lookup lt.1
            = some (some p) ∧
          p.change = round2
            ((((store.lookup (latestDate store) : Option Snapshot)).getD
              defaultSnapshot).totalValue - past.totalValue) ∧
          p.changePercent = round2
            (if 0 < past.totalValue then
              ((((store.lookup (latestDate store) : Option Snapshot)).getD
                defaultSnapshot).totalValue - past.totalValue)
                / past.totalValue * 100
             else 0))) := by
  have hperf : (get_performance store today janFirst).periods
      = [("1W", mkPeriod store
            (((store.lookup (latestDate store) : Option Snapshot)).getD defaultSnapshot)
            (latestDate store) (today - 7)),
         ("1M", mkPeriod store
            (((store.lookup (latestDate store) : Option Snapshot)).getD defaultSnapshot)
            (latestDate store) (today - 30)),
         ("3M", mkPeriod store
            (((store.lookup (latestDate store) : Option Snapshot)).getD defaultSnapshot)
            (latestDate store) (today - 90)),
         ("YTD", mkPeriod store
            (((store.lookup (latestDate store) : Option Snapshot)).getD defaultSnapshot)
            (latestDate store) janFirst)] := by
    unfold get_performance
    rw [if_neg hne]
    rfl
  have hmkNone : ∀ (latest : Snapshot) (latestD target : ℤ),
      get_nearest_snapshot store target = none →
      mkPeriod store latest latestD target = none := by
    intro latest latestD target h
    unfold mkPeriod
    rw [h]
  have hmkSome : ∀ (latest : Snapshot) (latestD target d : ℤ) (past : Snapshot),
      get_nearest_snapshot store target = some (d, past) →
      ∃ p : PeriodPerf, mkPeriod store latest latestD target = some p ∧
        p.change = round2 (latest.totalValue - past.totalValue) ∧
        p.changePercent = round2
          (if 0 < past.totalValue then
            (latest.totalValue - past.totalValue) / past.totalValue * 100
           else 0) := by
    intro latest latestD target d past h
    unfold mkPeriod
    rw [h]
    exact ⟨_, rfl, rfl, rfl⟩
  constructor
  · rw [hperf]
    rfl
  · intro lt hlt
    have hcases : lt = ("1W", today - 7) ∨ lt = ("1M", today - 30) ∨
        lt = ("3M", today - 90) ∨ lt = ("YTD", janFirst) := by
      simpa using hlt
    rcases hcases with rfl | rfl | rfl | rfl <;>
      refine ⟨fun hnone => by
          rw [hperf]
          simp [List.lookup, hmkNone _ _ _ hnone],
        fun d past hfound => ?_⟩ <;>
      · obtain ⟨p, hp, hchange, hpct⟩ :=
          hmkSome (((store.lookup (latestDate store) : Option Snapshot)).getD
            defaultSnapshot) (latestDate store) _ d past hfound
        exact ⟨p, by rw [hperf]; simp [List.lookup, hp], hchange, hpct⟩

/-- Witness for `c9_periods`: a store holding one snapshot still reports
all four windows. -/
theorem c9_periods_witness :
    (get_performance [((0 : ℤ), defaultSnapshot)] 0 0).periods.map Prod.fst
      = ["1W", "1M", "3M", "YTD"] :=
  (c9_periods [((0 : ℤ), defaultSnapshot)] 0 0 (by simp)).1

end FinAgent
